import Mathlib

/-!
Verification development for the docman multi-backend coordination layer.

The definitions below are a shallow embedding of the Python sources:
  * `src/db/qdrant_db.py`    (class QdrantChunksDB)
  * `src/db/minio_db.py`     (class MinioDB)
  * `src/db/postgres_db.py`  (class PostgresDB)
  * `src/api/services/database_manager.py` (class DatabaseManager)
  * `src/api/routes/chunks.py`, `src/api/routes/sessions.py` (route handlers)

Modelling conventions:
  * External store clients (MinIO, Qdrant, PostgreSQL servers) are modelled
    as oracle functions passed in as parameters; an `Option String` result
    with `some msg` models the client call raising an exception with
    message `msg`, `none` models success.
  * Python falsy checks (`if not x:`) on strings/lists are modelled by
    the empty string / empty list; where the code distinguishes an absent
    key from a present one, an `Option` is used (`none` = key absent).
  * datetimes are modelled as `Int` seconds since the epoch; the
    `isoformat` timestamp strings that are merely stored are modelled as
    opaque `String`s.
  * Wall-clock reads (`datetime.utcnow()`) are passed in as a parameter.
  * Metrics recording and logging are fire-and-forget (never read back by
    the code) and are not modelled.
  * Error-message strings that the code builds with f-string interpolation
    are modelled by structured reason values (inductive types) so the
    aggregation logic, not string formatting, is what is verified.
-/

namespace Docman

/-! ## Vector store adapter: `QdrantChunksDB.insert` (src/db/qdrant_db.py lines 123-258)

A chunk point arrives as a dict with optional `id`, a `vector` and a
`payload` dict.  `point.get('vector')` is falsy for an absent key, `None`
or the empty list: all are modelled by `vector = []`.  Likewise
`payload.get('document_id')` / `payload.get('chunk_content')` are falsy
for an absent key, `None` or the empty string: modelled by `""`.  The
remaining payload fields are read with `payload.get(key, default)` where
absence of the key yields the default: modelled by `Option` with `none` =
key absent. -/

/-- Input payload of one chunk point (the `payload` dict of
`QdrantChunksDB.insert`). -/
structure ChunkPayloadIn where
  document_id : String
  doc_title : Option String
  page : Option Int
  chunk_content : String
  file_url : Option String
  user_id : Option String
  session_id : Option String
deriving Repr, DecidableEq

/-- One element of the `points` argument of `QdrantChunksDB.insert`.
`id = none` models an absent or falsy `id` handled by
`point.get('id') or str(uuid.uuid4())`; `some ""` is likewise falsy. -/
structure ChunkPointIn where
  id : Option String
  vector : List Int
  payload : ChunkPayloadIn
deriving Repr, DecidableEq

/-- The fixed-shape payload the code stores
(`validated_payload` in `QdrantChunksDB.insert`, lines 198-207). -/
structure ChunkPayloadOut where
  document_id : String
  doc_title : String
  page : Int
  chunk_content : String
  file_url : String
  user_id : Option String
  session_id : Option String
  created_at : String
deriving Repr, DecidableEq

/-- `models.PointStruct(id=..., vector=..., payload=...)`. -/
structure PointStruct where
  id : String
  vector : List Int
  payload : ChunkPayloadOut
deriving Repr, DecidableEq

/-- Why one point of a batch was rejected (the `'error'` strings built at
lines 181-194 of qdrant_db.py). -/
inductive ChunkFailReason where
  | missingVector
  | missingFields (fields : List String)
deriving Repr, DecidableEq

/-- The `validated_payload` dict built for an accepted point
(lines 198-207): `document_id` and `chunk_content` are taken from the
input, `doc_title`/`file_url` default to `''`, `page` defaults to `0`,
`user_id`/`session_id` are passed through unchanged, and
`created_at = datetime.utcnow().isoformat()` is always added. -/
def validatedPayload (now : String) (pl : ChunkPayloadIn) : ChunkPayloadOut :=
  { document_id := pl.document_id
    doc_title := pl.doc_title.getD ""
    page := pl.page.getD 0
    chunk_content := pl.chunk_content
    file_url := pl.file_url.getD ""
    user_id := pl.user_id
    session_id := pl.session_id
    created_at := now }

/-- Per-item validation of `QdrantChunksDB.insert`: a point fails when its
vector is falsy, or `document_id` or `chunk_content` is falsy in the
payload (lines 180-195). -/
def chunkInvalid (p : ChunkPointIn) : Bool :=
  p.vector.isEmpty || p.payload.document_id == "" || p.payload.chunk_content == ""

/-- `point.get('id') or str(uuid.uuid4())` (line 178): the input id when
truthy, else a fresh generated id.  `genId i` models the `uuid.uuid4()`
call made while processing the point at index `i`. -/
def chunkPointId (genId : Nat → String) (i : Nat) (p : ChunkPointIn) : String :=
  match p.id with
  | some s => if s == "" then genId i else s
  | none => genId i

/-- The field names collected into `missing_fields` (lines 188-189), in
the order the code checks them. -/
def chunkMissingFields (pl : ChunkPayloadIn) : List String :=
  (if pl.document_id == "" then ["document_id"] else []) ++
    (if pl.chunk_content == "" then ["chunk_content"] else [])

/-- The preparation loop of `QdrantChunksDB.insert` (lines 170-226),
threading the enumeration index `i`.  Returns the `qdrant_points` that
will be submitted to the store and the `failed_points` list (index plus
reason, in input order). -/
def preparePointsAux (genId : Nat → String) (now : String) :
    Nat → List ChunkPointIn → List PointStruct × List (Nat × ChunkFailReason)
  | _, [] => ([], [])
  | i, p :: ps =>
    let rest := preparePointsAux genId now (i + 1) ps
    if p.vector.isEmpty then
      (rest.1, (i, ChunkFailReason.missingVector) :: rest.2)
    else if chunkMissingFields p.payload ≠ [] then
      (rest.1, (i, ChunkFailReason.missingFields (chunkMissingFields p.payload)) :: rest.2)
    else
      (⟨chunkPointId genId i p, p.vector, validatedPayload now p.payload⟩ :: rest.1, rest.2)

/-- The preparation loop starting at index 0. -/
def preparePoints (genId : Nat → String) (now : String) (points : List ChunkPointIn) :
    List PointStruct × List (Nat × ChunkFailReason) :=
  preparePointsAux genId now 0 points

/-- Result dict of `QdrantChunksDB.insert`.  The Python code adds the
`failed_points` key only when the list is nonempty; the empty list models
the absent key. -/
structure QdrantInsertResult where
  status : String
  message : Option String
  points_processed : Nat
  failed_points : List (Nat × ChunkFailReason)
deriving Repr, DecidableEq

/-- `QdrantChunksDB.insert` (lines 123-258).

Oracles: `connected` models `_check_client()` (the client attribute being
non-`None`); `collectionKnown` models `collection_exists` (`Except.error`
= the call raised); `createCollectionOk` models `create_collection`
returning `True`; `upsert` models `self._client.upsert` on the prepared
batch (`some msg` = raised).  `processing_time_ms` is wall-clock
instrumentation and is not modelled. -/
def QdrantChunksDB.insert (connected : Bool) (collectionKnown : Except String Bool)
    (createCollectionOk : Bool) (upsert : List PointStruct → Option String)
    (genId : Nat → String) (now : String) (points : List ChunkPointIn) :
    QdrantInsertResult :=
  if !connected then
    { status := "failed", message := some "Qdrant client not connected"
      points_processed := 0, failed_points := [] }
  else
    match collectionKnown with
    | Except.error e =>
      { status := "failed", message := some ("Error checking collection: " ++ e)
        points_processed := 0, failed_points := [] }
    | Except.ok exist =>
      if !exist && !createCollectionOk then
        { status := "failed", message := some "Failed to create collection"
          points_processed := 0, failed_points := [] }
      else
        let prepared := preparePoints genId now points
        if prepared.1.isEmpty then
          { status := "success", message := none
            points_processed := 0, failed_points := prepared.2 }
        else
          match upsert prepared.1 with
          | some e =>
            { status := "failed", message := some ("Error inserting points: " ++ e)
              points_processed := 0, failed_points := prepared.2 }
          | none =>
            { status := "success", message := none
              points_processed := prepared.1.length, failed_points := prepared.2 }

/-- `DatabaseManager.create_chunks` (database_manager.py lines 506-549):
after the initialization and client checks it returns the Qdrant insert
result unchanged.  `Except.error` models the raised
`DatabaseConnectionException`. -/
def DatabaseManager.create_chunks (ready : Bool) (clientPresent : Bool)
    (connected : Bool) (collectionKnown : Except String Bool) (createCollectionOk : Bool)
    (upsert : List PointStruct → Option String) (genId : Nat → String) (now : String)
    (chunks : List ChunkPointIn) : Except String QdrantInsertResult :=
  if !ready then Except.error "not_initialized"
  else if !clientPresent then Except.error "client_not_initialized"
  else Except.ok (QdrantChunksDB.insert connected collectionKnown createCollectionOk
    upsert genId now chunks)

/-- The status mapping of the HTTP route `upload_chunks`
(src/api/routes/chunks.py lines 72-85): `"success"` when the manager
result's status is `"success"`, else `"partial_failure"`. -/
def uploadChunksStatus (res : QdrantInsertResult) : String :=
  if res.status == "success" then "success" else "partial_failure"

/-! ## Vector store adapter: `QdrantChunksDB.delete` (qdrant_db.py lines 484-571)

Only the `by_document_id=True` path is embedded: it is the one
`DatabaseManager.delete_document` uses. -/

/-- Result dict of `QdrantChunksDB.delete`. -/
structure QdrantDeleteResult where
  status : String
  message : String
deriving Repr, DecidableEq

/-- The per-document deletion loop of `QdrantChunksDB.delete` with
`by_document_id=True` (lines 522-538): calls `self._client.delete` with a
`document_id` filter for each id; an exception anywhere aborts the loop
and the whole call returns the `'failed'` dict (line 566-571). -/
def qdrantDeleteByDocLoop (clientDelete : String → Option String) :
    List String → Option String
  | [] => none
  | d :: ds =>
    match clientDelete d with
    | some e => some e
    | none => qdrantDeleteByDocLoop clientDelete ds

/-- `QdrantChunksDB.delete(points_ids, by_document_id=True, ...)`.
`connected` models `_check_client()`; `clientDelete d` models
`self._client.delete` with the `document_id = d` filter (`some msg` =
raised). -/
def QdrantChunksDB.deleteByDocumentId (connected : Bool)
    (clientDelete : String → Option String) (ids : List String) : QdrantDeleteResult :=
  if !connected then
    { status := "failed", message := "Qdrant client not connected" }
  else
    match qdrantDeleteByDocLoop clientDelete ids with
    | some e => { status := "failed", message := "Error deleting points: " ++ e }
    | none => { status := "success", message := "Deleted chunks" }

/-! ## Blob store adapter: `MinioDB` (src/db/minio_db.py) -/

/-- One element of the `points` argument of `MinioDB.insert`.  The falsy
check `if not document_id or not file_data or not filename` treats `None`,
`''` and `b''` alike: the empty string / empty byte list model all of
them.  `file_data` bytes are modelled as a list of naturals. -/
structure MinioPoint where
  document_id : String
  file_data : List Nat
  filename : String
  file_size : Nat
  content_type : String
  file_hash : String
deriving Repr, DecidableEq

/-- An entry of the `documents` array returned by `MinioDB.insert`
(lines 193-200). -/
structure MinioDoc where
  document_id : String
  filename : String
  file_size : Nat
  chunks_count : Nat
  processing_status : String
  file_url : String
deriving Repr, DecidableEq

/-- Why one upload of a batch failed (the `failed_uploads` entries of
`MinioDB.insert`, lines 134-157 and 202-206). -/
inductive MinioFailReason where
  | missingFields
  | badExtension
  | tooLarge (size : Nat)
  | uploadErr (msg : String)
deriving Repr, DecidableEq

/-- Result dict of `MinioDB.insert`.  `failed_uploads = []` models the
absent key; `error` is the bucket-failure key (lines 117-123). -/
structure MinioInsertResult where
  documents : List MinioDoc
  total_processed : Nat
  failed_uploads : List (String × MinioFailReason)
  error : Option String
deriving Repr, DecidableEq

/-- `allowed_extensions = ['pdf', 'docx', 'txt', 'md', 'rtf']`
(minio_db.py line 142). -/
def minioAllowedExtensions : List String := ["pdf", "docx", "txt", "md", "rtf"]

/-- Python `str.lower` on one character (ASCII range, which is all the
extension check distinguishes). -/
def toLowerChar (c : Char) : Char :=
  if 65 ≤ c.toNat ∧ c.toNat ≤ 90 then Char.ofNat (c.toNat + 32) else c

/-- Python `str.split(sep)` over the character list: splits on every
occurrence of `sep`, keeping empty segments, never returning an empty
segment list. -/
def splitOnCharList (sep : Char) : List Char → List (List Char)
  | [] => [[]]
  | c :: cs =>
    match splitOnCharList sep cs with
    | [] => [[]]
    | s :: ss => if c = sep then [] :: s :: ss else (c :: s) :: ss

/-- `filename.lower().split('.')[-1] if '.' in filename else ''`
(line 143), written over the character list. -/
def fileExtension (filename : String) : String :=
  if filename.data.contains '.' then
    String.mk ((splitOnCharList '.' (filename.data.map toLowerChar)).getLastD [])
  else ""

/-- `max_size = 50 * 1024 * 1024` (line 152). -/
def minioMaxSize : Nat := 50 * 1024 * 1024

/-- The per-point upload loop of `MinioDB.insert` (lines 125-206).
`put d` models `self._client.put_object` on object name `d` (`some msg` =
raised).  Returns `(documents, failed_uploads)`. -/
def minioInsertLoop (put : String → Option String) (bucket baseUrl : String) :
    List MinioPoint → List MinioDoc × List (String × MinioFailReason)
  | [] => ([], [])
  | p :: ps =>
    let rest := minioInsertLoop put bucket baseUrl ps
    if p.document_id == "" || p.file_data.isEmpty || p.filename == "" then
      (rest.1, (if p.filename == "" then "unknown" else p.filename,
        MinioFailReason.missingFields) :: rest.2)
    else if !minioAllowedExtensions.contains (fileExtension p.filename) then
      (rest.1, (p.filename, MinioFailReason.badExtension) :: rest.2)
    else if minioMaxSize < p.file_size then
      (rest.1, (p.filename, MinioFailReason.tooLarge p.file_size) :: rest.2)
    else
      match put p.document_id with
      | some e => (rest.1, (p.filename, MinioFailReason.uploadErr e) :: rest.2)
      | none =>
        ({ document_id := p.document_id, filename := p.filename
           file_size := p.file_data.length, chunks_count := 0
           processing_status := "uploaded"
           file_url := baseUrl ++ "/" ++ bucket ++ "/" ++ p.document_id } :: rest.1,
         rest.2)

/-- `MinioDB.insert` (lines 91-220).  `bucketOk` models
`create_bucket(bucket_name)` succeeding; on failure the call returns the
empty `documents` plus the `error` key (lines 117-123). -/
def MinioDB.insert (put : String → Option String) (bucketOk : Bool)
    (bucket baseUrl : String) (points : List MinioPoint) : MinioInsertResult :=
  if !bucketOk then
    { documents := [], total_processed := 0, failed_uploads := []
      error := some ("Failed to create/access bucket " ++ bucket) }
  else
    let r := minioInsertLoop put bucket baseUrl points
    { documents := r.1, total_processed := r.1.length, failed_uploads := r.2, error := none }

/-- Outcome of `self._client.remove_object` for one object: success, an
`S3Error` with `code == 'NoSuchKey'`, or another exception
(minio_db.py lines 379-396). -/
inductive MinioRemoveOutcome where
  | ok
  | noSuchKey
  | err (msg : String)
deriving Repr, DecidableEq

/-- A `failed_deletions` entry of `MinioDB.delete`. -/
inductive MinioDeleteFail where
  | notFound (document_id : String)
  | err (document_id : String) (msg : String)
deriving Repr, DecidableEq

/-- Result dict of `MinioDB.delete`; `failed_deletions = []` models the
absent key. -/
structure MinioDeleteResult where
  deleted_documents : List String
  total_deleted : Nat
  failed_deletions : List MinioDeleteFail
deriving Repr, DecidableEq

/-- The per-id loop of `MinioDB.delete` (lines 373-396): every exception
is caught per id, so the loop always visits every id. -/
def minioDeleteLoop (remove : String → MinioRemoveOutcome) :
    List String → List String × List MinioDeleteFail
  | [] => ([], [])
  | d :: ds =>
    let rest := minioDeleteLoop remove ds
    match remove d with
    | MinioRemoveOutcome.ok => (d :: rest.1, rest.2)
    | MinioRemoveOutcome.noSuchKey => (rest.1, MinioDeleteFail.notFound d :: rest.2)
    | MinioRemoveOutcome.err e => (rest.1, MinioDeleteFail.err d e :: rest.2)

/-- `MinioDB.delete` (lines 351-409).  Note the method never raises: all
client exceptions are collected into `failed_deletions`. -/
def MinioDB.delete (remove : String → MinioRemoveOutcome) (ids : List String) :
    MinioDeleteResult :=
  let r := minioDeleteLoop remove ids
  { deleted_documents := r.1, total_deleted := r.1.length, failed_deletions := r.2 }

/-! ## Relational store adapter: `PostgresDB` (src/db/postgres_db.py)

`PostgresDB.insert` (lines 131-275) runs every row of the batch through
one cursor and commits once at the end.  The external PostgreSQL
connection is modelled with standard transaction semantics: a statement
executed after an earlier statement of the same transaction raised leaves
the connection in the aborted state and itself raises
(`InFailedSqlTransaction`), and `commit()` of an aborted transaction
persists nothing (the server rolls it back).  Rows are only persisted at
the commit. -/

/-- One element of the `points` argument of `PostgresDB.insert`.  Fields
read with `point.get(key, default)` are `Option`s (`none` = key absent);
the metadata dict is an association list. -/
structure PgInsertRow where
  document_id : String
  user_id : String
  filename : String
  file_size : Nat
  file_url : String
  file_type : Option String
  processing_status : Option String
  chunks_count : Option Nat
  metadata : List (String × String)
deriving Repr, DecidableEq

/-- An entry of the `documents` array returned by `PostgresDB.insert`
(lines 234-241), built from the `RETURNING *` record. -/
structure PgDoc where
  document_id : String
  filename : String
  file_size : Nat
  chunks_count : Nat
  processing_status : String
  file_url : String
deriving Repr, DecidableEq

/-- Why one row of a batch failed (the `failed_inserts` entries of
`PostgresDB.insert`, lines 184-187, 202-205 and 244-247). -/
inductive PgFailReason where
  | missingFields
  | invalidUUID
  | insertErr (msg : String)
  | txnAborted
deriving Repr, DecidableEq

/-- Result dict of `PostgresDB.insert`; `failed_inserts = []` models the
absent key, `error` the connection/transaction-level failure key. -/
structure PgInsertResult where
  documents : List PgDoc
  total_processed : Nat
  failed_inserts : List (String × PgFailReason)
  error : Option String
deriving Repr, DecidableEq

/-- `PostgresDB.insert` together with the state the commit leaves in the
store. `persisted` is what the external table holds after the final
`commit()`; `aborted` is the transaction state at commit time. -/
structure PgInsertOutcome where
  result : PgInsertResult
  persisted : List PgDoc
  aborted : Bool
deriving Repr, DecidableEq

/-- The falsy check
`if not all([document_id, user_id, filename, file_url])` (line 183). -/
def pgRowFieldsPresent (r : PgInsertRow) : Bool :=
  r.document_id != "" && r.user_id != "" && r.filename != "" && r.file_url != ""

/-- Full per-row validation of `PostgresDB.insert`: the falsy check of
line 183 plus the `uuid.UUID` parses of lines 198-200.  `isUUID` models
Python's `uuid.UUID(s)` succeeding. -/
def pgRowValid (isUUID : String → Bool) (r : PgInsertRow) : Bool :=
  pgRowFieldsPresent r && isUUID r.document_id && isUUID r.user_id

/-- The record the `INSERT ... RETURNING *` produces for a valid row,
as reflected into the `documents` entry (lines 208-241).  `minio_path`
is the input `file_url` (line 195). -/
def pgRecordOf (r : PgInsertRow) : PgDoc :=
  { document_id := r.document_id, filename := r.filename, file_size := r.file_size
    chunks_count := r.chunks_count.getD 0
    processing_status := r.processing_status.getD "pending"
    file_url := r.file_url }

/-- The per-row loop of `PostgresDB.insert` (lines 169-247), threading the
input index and the transaction-aborted flag.  `dbErr i = some msg` models
`cursor.execute` of the i-th row's INSERT raising a database error (e.g. a
duplicate key); a raise puts the transaction into the aborted state, and
every later `cursor.execute` then raises `InFailedSqlTransaction`, which
the per-row `except` records as a failure.  Validation failures `continue`
before any SQL runs, so they do not touch the transaction.  Returns
`(documents, failed_inserts, aborted)`. -/
def pgInsertLoop (isUUID : String → Bool) (dbErr : Nat → Option String) :
    Nat → Bool → List PgInsertRow → List PgDoc × List (String × PgFailReason) × Bool
  | _, ab, [] => ([], [], ab)
  | i, ab, r :: rs =>
    let fname := if r.filename == "" then "unknown" else r.filename
    if !pgRowFieldsPresent r then
      let rest := pgInsertLoop isUUID dbErr (i + 1) ab rs
      (rest.1, (fname, PgFailReason.missingFields) :: rest.2.1, rest.2.2)
    else if !(isUUID r.document_id && isUUID r.user_id) then
      let rest := pgInsertLoop isUUID dbErr (i + 1) ab rs
      (rest.1, (fname, PgFailReason.invalidUUID) :: rest.2.1, rest.2.2)
    else if ab then
      let rest := pgInsertLoop isUUID dbErr (i + 1) true rs
      (rest.1, (fname, PgFailReason.txnAborted) :: rest.2.1, rest.2.2)
    else
      match dbErr i with
      | some e =>
        let rest := pgInsertLoop isUUID dbErr (i + 1) true rs
        (rest.1, (fname, PgFailReason.insertErr e) :: rest.2.1, rest.2.2)
      | none =>
        let rest := pgInsertLoop isUUID dbErr (i + 1) ab rs
        (pgRecordOf r :: rest.1, rest.2.1, rest.2.2)

/-- `PostgresDB.insert` (lines 131-275).  `connOk` models
`_check_connection()`.  The single `commit()` at line 251 persists the
successfully executed rows, unless the transaction was aborted, in which
case the server rolls the whole transaction back and nothing persists. -/
def PostgresDB.insert (connOk : Bool) (isUUID : String → Bool)
    (dbErr : Nat → Option String) (rows : List PgInsertRow) : PgInsertOutcome :=
  if !connOk then
    { result := { documents := [], total_processed := 0, failed_inserts := []
                  error := some "Database connection failed" }
      persisted := [], aborted := false }
  else
    let out := pgInsertLoop isUUID dbErr 0 false rows
    { result := { documents := out.1, total_processed := out.1.length
                  failed_inserts := out.2.1, error := none }
      persisted := if out.2.2 then [] else out.1
      aborted := out.2.2 }

/-- Whether some row that passes validation has a database error under
`dbErr`: the specification-side condition equivalent to the transaction
ending aborted. -/
def pgAnyValidDbErr (isUUID : String → Bool) (dbErr : Nat → Option String)
    (rows : List PgInsertRow) : Bool :=
  rows.enum.any fun ir => pgRowValid isUUID ir.2 && (dbErr ir.1).isSome

/-- Outcome of the SELECT-then-DELETE pair `PostgresDB.delete` runs for
one id (lines 458-495): the id's row is absent, the delete succeeds, the
delete touches no row, or a statement raises. -/
inductive PgRowOutcome where
  | notFound
  | deleted (filename : String)
  | noRows
  | err (msg : String)
deriving Repr, DecidableEq

/-- A `failed_deletions` entry of `PostgresDB.delete`. -/
inductive PgDeleteFail where
  | notFound (document_id : String)
  | failed (document_id : String)
  | err (document_id : String) (msg : String)
deriving Repr, DecidableEq

/-- Result dict of `PostgresDB.delete`. -/
structure PgDeleteResult where
  deleted_documents : List String
  total_deleted : Nat
  failed_deletions : List PgDeleteFail
  error : Option String
deriving Repr, DecidableEq

/-- The per-id loop of `PostgresDB.delete` (lines 457-495); every
exception is caught per id, so the loop visits every id. -/
def pgDeleteLoop (row : String → PgRowOutcome) :
    List String → List String × List PgDeleteFail
  | [] => ([], [])
  | d :: ds =>
    let rest := pgDeleteLoop row ds
    match row d with
    | PgRowOutcome.notFound => (rest.1, PgDeleteFail.notFound d :: rest.2)
    | PgRowOutcome.deleted _ => (d :: rest.1, rest.2)
    | PgRowOutcome.noRows => (rest.1, PgDeleteFail.failed d :: rest.2)
    | PgRowOutcome.err e => (rest.1, PgDeleteFail.err d e :: rest.2)

/-- `PostgresDB.delete` (lines 425-523).  `connOk` models
`_check_connection()`; the method never raises.  Only the result dict is
modelled here: `delete_document` (the caller verified below) reads
nothing but this dict. -/
def PostgresDB.delete (connOk : Bool) (row : String → PgRowOutcome)
    (ids : List String) : PgDeleteResult :=
  if !connOk then
    { deleted_documents := [], total_deleted := 0, failed_deletions := []
      error := some "Database connection failed" }
  else
    let r := pgDeleteLoop row ids
    { deleted_documents := r.1, total_deleted := r.1.length
      failed_deletions := r.2, error := none }

/-! ## Coordinator: `DatabaseManager` (src/api/services/database_manager.py) -/

/-- A backend call made by a coordinator method; used to record the call
trace of an operation (what the repository's tests observe through mock
call counts). -/
inductive Call where
  | minioInsert
  | minioDelete
  | qdrantDelete
  | postgresInsert
  | postgresDelete
deriving Repr, DecidableEq

/-- The dict returned by `DatabaseManager.is_healthy` (lines 161-193). -/
structure HealthStatus where
  minio : Bool
  qdrant : Bool
  postgres : Bool
  overall : Bool
deriving Repr, DecidableEq

/-- `DatabaseManager.is_healthy` (lines 161-193).  Each argument models
one `if self.X_client and self.X_client._check():` step: `none` = the
client attribute is `None` (check skipped), `some (Except.ok b)` = the
liveness check returns `b`, `some (Except.error e)` = the liveness check
raises.  The body runs inside one `try`: a raise jumps to the `except`
handler, which returns the `health_status` accumulated so far, so fields
after the raising check keep their initial `False`.  The method itself
never raises. -/
def DatabaseManager.is_healthy (minioCheck qdrantCheck postgresCheck :
    Option (Except String Bool)) : HealthStatus :=
  let s0 : HealthStatus := ⟨false, false, false, false⟩
  match minioCheck with
  | some (Except.error _) => s0
  | _ =>
    let s1 := { s0 with
      minio := match minioCheck with | some (Except.ok b) => b | _ => false }
    match qdrantCheck with
    | some (Except.error _) => s1
    | _ =>
      let s2 := { s1 with
        qdrant := match qdrantCheck with | some (Except.ok b) => b | _ => false }
      match postgresCheck with
      | some (Except.error _) => s2
      | _ =>
        let s3 := { s2 with
          postgres := match postgresCheck with | some (Except.ok b) => b | _ => false }
        { s3 with overall := s3.minio && s3.qdrant && s3.postgres }

/-- The MinIO handle `create_document` uses: the `put_object` oracle, the
bucket self-check, and the configured bucket / base-url strings. -/
structure MinioInsertHandle where
  put : String → Option String
  bucketOk : Bool
  bucket : String
  baseUrl : String

/-- The PostgreSQL handle `create_document` uses. -/
structure PgInsertHandle where
  connOk : Bool
  isUUID : String → Bool
  dbErr : Nat → Option String

/-- The errors `create_document` raises (`DatabaseConnectionException`
or the bare `Exception("MinIO upload failed")`, re-raised at line 284). -/
inductive CreateDocErr where
  | notInitialized
  | minioClientMissing
  | pgClientMissing
  | minioUploadFailed
deriving Repr, DecidableEq

/-- The success dict of `DatabaseManager.create_document`
(lines 265-270). -/
structure CreateDocResponse where
  status : String
  document_id : String
  minio_result : MinioInsertResult
  postgres_result : PgInsertResult
deriving Repr, DecidableEq

/-- `metadata.get('user_id', 'anonymous') if metadata else 'anonymous'`
(line 241). -/
def metaUserId (metadata : Option (List (String × String))) : String :=
  match metadata with
  | none => "anonymous"
  | some m => (m.lookup "user_id").getD "anonymous"

/-- `content_type.split('/')[-1] if content_type else None` (line 245). -/
def contentTypeSuffix (contentType : String) : Option String :=
  if contentType == "" then none else some ((contentType.splitOn "/").getLastD "")

/-- The `postgres_points` entry built from one MinIO `documents` entry
(lines 239-251).  The `created_at`/`updated_at` keys the code also places
in the dict are never read by `PostgresDB.insert` and are not modelled. -/
def pgPointOfMinioDoc (metadata : Option (List (String × String)))
    (contentType : String) (e : MinioDoc) : PgInsertRow :=
  { document_id := e.document_id
    user_id := metaUserId metadata
    filename := e.filename
    file_size := e.file_size
    file_url := e.file_url
    file_type := contentTypeSuffix contentType
    processing_status := some e.processing_status
    chunks_count := some e.chunks_count
    metadata := metadata.getD [] }

/-- `DatabaseManager.create_document` (lines 199-284): build the single
MinIO point, call `MinioDB.insert`; only if its `documents` list is
non-empty, build the PostgreSQL rows from it and call
`PostgresDB.insert`, then return the `"success"` dict; otherwise raise
`Exception("MinIO upload failed")`.  All raises propagate to the caller
(the `except` block at lines 274-284 records metrics and re-raises).
Also returns the trace of backend calls made. -/
def DatabaseManager.create_document (ready : Bool)
    (minioClient : Option MinioInsertHandle) (pgClient : Option PgInsertHandle)
    (fileData : List Nat) (filename contentType fileHash documentId : String)
    (metadata : Option (List (String × String))) :
    Except CreateDocErr CreateDocResponse × List Call :=
  if !ready then (Except.error CreateDocErr.notInitialized, [])
  else
    match minioClient with
    | none => (Except.error CreateDocErr.minioClientMissing, [])
    | some mc =>
      let minioPoints : List MinioPoint :=
        [{ document_id := documentId, file_data := fileData, filename := filename
           file_size := fileData.length, content_type := contentType
           file_hash := fileHash }]
      let minioRes := MinioDB.insert mc.put mc.bucketOk mc.bucket mc.baseUrl minioPoints
      if minioRes.documents.isEmpty then
        (Except.error CreateDocErr.minioUploadFailed, [Call.minioInsert])
      else
        match pgClient with
        | none => (Except.error CreateDocErr.pgClientMissing, [Call.minioInsert])
        | some pc =>
          let pgPoints := minioRes.documents.map (pgPointOfMinioDoc metadata contentType)
          let pgOut := PostgresDB.insert pc.connOk pc.isUUID pc.dbErr pgPoints
          (Except.ok { status := "success", document_id := documentId
                       minio_result := minioRes, postgres_result := pgOut.result },
           [Call.minioInsert, Call.postgresInsert])

/-- The Qdrant handle `delete_document` uses. -/
structure QdrantDeleteHandle where
  connected : Bool
  clientDelete : String → Option String

/-- The PostgreSQL handle `delete_document` uses. -/
structure PgDeleteHandle where
  connOk : Bool
  row : String → PgRowOutcome

/-- The dict returned by `DatabaseManager.delete_document`
(lines 412-416): the per-backend `results` map holds one entry per
non-`None` client (`none` models the key being absent). -/
structure DeleteDocResponse where
  status : String
  document_id : String
  minio : Option MinioDeleteResult
  qdrant : Option QdrantDeleteResult
  postgres : Option PgDeleteResult
deriving Repr, DecidableEq

/-- `DatabaseManager.delete_document` (lines 374-432): delete from MinIO,
then the document's chunks from Qdrant, then the metadata row from
PostgreSQL, collecting each adapter's result dict under its backend key.
The three adapter `delete` methods catch all their exceptions internally
(see `MinioDB.delete`, `QdrantChunksDB.deleteByDocumentId`,
`PostgresDB.delete` above), so the `except` branch at lines 418-432 that
would return `status: "failed"` is unreachable and the method returns the
`"success"` dict whenever the manager is initialized.  Also returns the
trace of backend calls made. -/
def DatabaseManager.delete_document (ready : Bool)
    (minioClient : Option (String → MinioRemoveOutcome))
    (qdrantClient : Option QdrantDeleteHandle)
    (pgClient : Option PgDeleteHandle) (documentId : String) :
    Except CreateDocErr (DeleteDocResponse × List Call) :=
  if !ready then Except.error CreateDocErr.notInitialized
  else
    let minioRes := minioClient.map fun remove => MinioDB.delete remove [documentId]
    let minioTrace := if minioClient.isSome then [Call.minioDelete] else []
    let qdrantRes := qdrantClient.map fun qc =>
      QdrantChunksDB.deleteByDocumentId qc.connected qc.clientDelete [documentId]
    let qdrantTrace := if qdrantClient.isSome then [Call.qdrantDelete] else []
    let pgRes := pgClient.map fun pc => PostgresDB.delete pc.connOk pc.row [documentId]
    let pgTrace := if pgClient.isSome then [Call.postgresDelete] else []
    Except.ok ({ status := "success", document_id := documentId
                 minio := minioRes, qdrant := qdrantRes, postgres := pgRes },
               minioTrace ++ qdrantTrace ++ pgTrace)

/-! ## Session store (PostgreSQL `sessions` table)

`DatabaseManager` delegates all session CRUD to `PostgresDB.create_session`,
`get_session`, `update_session`, `expire_old_sessions`, ... (see
database_manager.py lines 725-1026), but those methods are not present in
`src/db/postgres_db.py`: only their callers are in the tree.  The
definitions below marked `Modelled from the spec:` model that missing
session-SQL layer from the specification (§4.3); the route-handler logic
on top of them is embedded from `src/api/routes/sessions.py`, which is in
the tree. -/

/-- One row of the `sessions` table.  `expires_at` is seconds since the
epoch; `metadata` is the JSON column as an association list. -/
structure SessionRow where
  session_id : String
  user_id : String
  status : String
  expires_at : Int
  metadata : List (String × String)
  temp_collection_name : Option String
deriving Repr, DecidableEq

/-- Whether the sweep's single UPDATE statement matches a row:
`status != 'expired' AND expires_at < now()`. -/
def sessionSweepHit (now : Int) (r : SessionRow) : Bool :=
  r.status != "expired" && r.expires_at < now

/-- Modelled from the spec: `PostgresDB.expire_old_sessions` is absent
from src/ (only its caller `DatabaseManager.expire_old_sessions`,
database_manager.py lines 945-980, is present).  Per §4.3 it is the
single statement
`UPDATE sessions SET status='expired' WHERE status != 'expired' AND expires_at < now()`
returning the number of rows it changed.  Returns the updated table and
the `expired_count`. -/
def sweepExpiredSessions (now : Int) (store : List SessionRow) :
    List SessionRow × Nat :=
  (store.map fun r => if sessionSweepHit now r then { r with status := "expired" } else r,
   (store.filter (sessionSweepHit now)).length)

/-- Modelled from the spec: `PostgresDB.get_session` is absent from src/.
Per §4.3 it returns the row keyed by `session_id`, or nothing. -/
def getSessionStore (store : List SessionRow) (sid : String) : Option SessionRow :=
  store.find? fun r => r.session_id == sid

/-- Modelled from the spec: `PostgresDB.update_session` is absent from
src/ (only its caller `DatabaseManager.update_session`,
database_manager.py lines 858-906, is present).  Per §4.3 the update's
fields are independently optional: each provided field is set on the
`session_id` row, `metadata` is merged key-by-key (new overwrites old),
and the expiry column is set when an `expires_at` value is provided. -/
def updateSessionStore (store : List SessionRow) (sid : String)
    (status : Option String) (metadata : Option (List (String × String)))
    (tempCollectionName : Option String) (expiresAt : Option Int) : List SessionRow :=
  store.map fun r =>
    if r.session_id == sid then
      { r with
        status := status.getD r.status
        metadata := match metadata with
          | none => r.metadata
          | some m => (r.metadata.filter fun kv => (m.lookup kv.1).isNone) ++ m
        temp_collection_name := match tempCollectionName with
          | none => r.temp_collection_name
          | some t => some t
        expires_at := expiresAt.getD r.expires_at }
    else r

/-- The body of a PUT `/sessions/{session_id}` request
(`SessionUpdateRequest`). -/
structure SessionUpdateRequest where
  status : Option String
  metadata : Option (List (String × String))
  temp_collection_name : Option String
  extend_hours : Option Int
deriving Repr, DecidableEq

/-- `if request.extend_hours:` (sessions.py line 200): Python truthiness,
false for an absent field and for `0`. -/
def extendHoursTruthy (extendHours : Option Int) : Option Int :=
  match extendHours with
  | none => none
  | some h => if h == 0 then none else some h

/-- The route handler `update_session` (src/api/routes/sessions.py lines
177-234), composed with the session store.  When `extend_hours` is
truthy, the handler reads the session's stored `expires_at` and computes
the new expiry as the stored expiry plus `extend_hours` hours
(lines 199-204) - `datetime.fromisoformat` on the stored value plus
`timedelta(hours=...)`, modelled on epoch seconds - and passes it through
`DatabaseManager.update_session` (a pure delegation, database_manager.py
lines 858-906) to the store update.  `now` is the wall-clock time at
which the request runs; the handler never reads it for this computation.
Returns the updated table. -/
def routeUpdateSession (now : Int) (store : List SessionRow) (sid : String)
    (req : SessionUpdateRequest) : List SessionRow :=
  let expiresAt : Option Int :=
    match extendHoursTruthy req.extend_hours with
    | none => none
    | some h =>
      match getSessionStore store sid with
      | none => none
      | some r => some (r.expires_at + 3600 * h)
  updateSessionStore store sid req.status req.metadata req.temp_collection_name expiresAt

/-! ## Specification-side functions

Closed forms used to state the theorems; they are compared against the
embedded code, not taken from it. -/

/-- The failure reason per-item validation assigns to an invalid point, in
the order the code checks (vector first, then payload fields). -/
def chunkFailReasonOf (p : ChunkPointIn) : ChunkFailReason :=
  if p.vector.isEmpty then ChunkFailReason.missingVector
  else ChunkFailReason.missingFields (chunkMissingFields p.payload)

/-- The point the code builds for a valid input point at index `i`. -/
def acceptedPointOf (genId : Nat → String) (now : String) (ip : Nat × ChunkPointIn) :
    PointStruct :=
  ⟨chunkPointId genId ip.1 ip.2, ip.2.vector, validatedPayload now ip.2.payload⟩

end Docman

namespace Docman

/-! ## Helper lemmas -/

theorem length_filter_not_eq_sub {α : Type} (p : α → Bool) (l : List α) :
    (l.filter fun a => !p a).length = l.length - (l.filter p).length := by
  induction l with
  | nil => rfl
  | cons a l ih =>
    have hle : (l.filter p).length ≤ l.length := List.length_filter_le p l
    by_cases h : p a = true <;> simp [List.filter_cons, h, ih] <;> omega

theorem snd_mem_of_mem_enumFrom {α : Type} {l : List α} :
    ∀ {n : Nat} {ip : Nat × α}, ip ∈ l.enumFrom n → ip.2 ∈ l := by
  induction l with
  | nil => intro n ip h; simp [List.enumFrom] at h
  | cons a l ih =>
    intro n ip h
    simp only [List.enumFrom, List.mem_cons] at h
    rcases h with h | h
    · simp [h]
    · exact List.mem_cons_of_mem a (ih h)

theorem length_filter_enumFrom {α : Type} (p : α → Bool) (l : List α) :
    ∀ n, ((l.enumFrom n).filter fun ip => p ip.2).length = (l.filter p).length := by
  induction l with
  | nil => intro n; rfl
  | cons a l ih =>
    intro n
    by_cases h : p a = true <;>
      simp [List.enumFrom, List.filter_cons, h, ih (n + 1)]

theorem preparePointsAux_eq (genId : Nat → String) (now : String) :
    ∀ (points : List ChunkPointIn) (i : Nat),
      preparePointsAux genId now i points =
        (((points.enumFrom i).filter fun ip => !chunkInvalid ip.2).map
           (acceptedPointOf genId now),
         ((points.enumFrom i).filter fun ip => chunkInvalid ip.2).map
           fun ip => (ip.1, chunkFailReasonOf ip.2)) := by
  intro points
  induction points with
  | nil => intro i; rfl
  | cons p ps ih =>
    intro i
    by_cases hv : p.vector = [] <;>
      by_cases hd : p.payload.document_id = "" <;>
        by_cases hc : p.payload.chunk_content = "" <;>
          simp [preparePointsAux, List.enumFrom, List.filter_cons, chunkInvalid,
            chunkMissingFields, chunkFailReasonOf, acceptedPointOf, List.isEmpty_iff,
            hv, hd, hc, ih (i + 1)]

theorem preparePoints_eq (genId : Nat → String) (now : String)
    (points : List ChunkPointIn) :
    preparePoints genId now points =
      ((points.enum.filter fun ip => !chunkInvalid ip.2).map (acceptedPointOf genId now),
       (points.enum.filter fun ip => chunkInvalid ip.2).map
         fun ip => (ip.1, chunkFailReasonOf ip.2)) := by
  simpa [preparePoints, List.enum] using preparePointsAux_eq genId now points 0

/-! ## Claim theorems -/

/-- C4.  For a chunk upsert batch of `N` items of which exactly `K` fail
per-item validation (missing vector, or missing/empty `document_id` or
`chunk_content`), and a vector store that accepts the submission, the
result of `QdrantChunksDB.insert` reports `points_processed = N - K` and
exactly `K` failure entries, each carrying the failing item's index (in
input order); the `N - K` valid items are exactly the points submitted to
the store, each with its input id, or with the freshly generated id
`genId i` when the input id is absent (the `acceptedPointOf`/
`chunkPointId` closed form). -/
theorem chunk_batch_validation_aggregation (genId : Nat → String) (now : String)
    (points : List ChunkPointIn) :
    (QdrantChunksDB.insert true (Except.ok true) true (fun _ => none) genId now
        points).points_processed =
      points.length - (points.filter chunkInvalid).length ∧
    (QdrantChunksDB.insert true (Except.ok true) true (fun _ => none) genId now
        points).failed_points.length = (points.filter chunkInvalid).length ∧
    (QdrantChunksDB.insert true (Except.ok true) true (fun _ => none) genId now
        points).failed_points =
      (points.enum.filter fun ip => chunkInvalid ip.2).map
        (fun ip => (ip.1, chunkFailReasonOf ip.2)) ∧
    (preparePoints genId now points).1 =
      (points.enum.filter fun ip => !chunkInvalid ip.2).map (acceptedPointOf genId now) ∧
    (QdrantChunksDB.insert true (Except.ok true) true (fun _ => none) genId now
        points).points_processed = (preparePoints genId now points).1.length := by
  have hins : QdrantChunksDB.insert true (Except.ok true) true (fun _ => none) genId now
      points =
      { status := "success", message := none
        points_processed := (preparePoints genId now points).1.length
        failed_points := (preparePoints genId now points).2 } := by
    by_cases hemp : (preparePoints genId now points).1.isEmpty = true
    · have : (preparePoints genId now points).1 = [] := by simpa [List.isEmpty_iff] using hemp
      simp [QdrantChunksDB.insert, hemp, this]
    · simp [QdrantChunksDB.insert, hemp]
  have hprep := preparePoints_eq genId now points
  have hacc : (preparePoints genId now points).1.length =
      points.length - (points.filter chunkInvalid).length := by
    rw [hprep]
    simp only [List.length_map, List.enum]
    rw [length_filter_enumFrom (fun p => !chunkInvalid p) points 0]
    exact length_filter_not_eq_sub chunkInvalid points
  have hfail : ((preparePoints genId now points).2).length =
      (points.filter chunkInvalid).length := by
    rw [hprep]
    simp only [List.length_map, List.enum]
    exact length_filter_enumFrom chunkInvalid points 0
  rw [hins]
  exact ⟨hacc, hfail, congrArg Prod.snd hprep, congrArg Prod.fst hprep, rfl⟩

/-- C5 counterexample.  A two-item batch whose second item has an empty
`chunk_content`: one item fails, yet the result of
`DatabaseManager.create_chunks` has overall status `"success"` (not
`"partial_failure"`), and the `upload_chunks` route maps it to
`"success"` as well.  The per-item failure is only in the failed list. -/
theorem chunk_batch_status_counterexample :
    (DatabaseManager.create_chunks true true true (Except.ok true) true (fun _ => none)
        (fun _ => "generated-id") "2024-01-01T00:00:00"
        [⟨some "c1", [1], ⟨"d1", none, none, "hello", none, none, none⟩⟩,
         ⟨some "c2", [1], ⟨"d1", none, none, "", none, none, none⟩⟩]).map
        (fun r => (r.status, uploadChunksStatus r, r.points_processed,
          r.failed_points.length)) =
      Except.ok ("success", "success", 1, 1) := by
  rfl

/-- C5 amended.  The overall status of a chunk batch upsert is
`"success"` exactly when the submission to the vector store itself goes
through (nothing to submit, or the store's upsert call does not raise) -
per-item validation failures do not change the status and are reported
only in the failed list; the HTTP layer reports `"partial_failure"`
exactly when the status is not `"success"`. -/
theorem chunk_batch_status_semantics (upsert : List PointStruct → Option String)
    (genId : Nat → String) (now : String) (points : List ChunkPointIn) :
    ((QdrantChunksDB.insert true (Except.ok true) true upsert genId now points).status =
        "success" ↔
      ((preparePoints genId now points).1 = [] ∨
        upsert (preparePoints genId now points).1 = none)) ∧
    (uploadChunksStatus
        (QdrantChunksDB.insert true (Except.ok true) true upsert genId now points) =
        "partial_failure" ↔
      (QdrantChunksDB.insert true (Except.ok true) true upsert genId now
          points).status ≠ "success") := by
  constructor
  · by_cases hemp : (preparePoints genId now points).1.isEmpty = true
    · simp_all [QdrantChunksDB.insert, List.isEmpty_iff]
    · rcases hup : upsert (preparePoints genId now points).1 with _ | e <;>
        simp_all [QdrantChunksDB.insert, List.isEmpty_iff]
  · by_cases hs : (QdrantChunksDB.insert true (Except.ok true) true upsert genId now
        points).status = "success" <;> simp_all [uploadChunksStatus]

/-- C10.  Every point the vector-store insert accepts is submitted with a
fully populated fixed-shape payload: `document_id` and `chunk_content`
are taken from the input (and are non-empty), `doc_title` defaults to
`""`, `page` defaults to `0`, `file_url` defaults to `""`, `user_id` and
`session_id` are passed through (possibly null), and `created_at` is the
insertion-time timestamp.  (All eight fields are present by the type of
`ChunkPayloadOut`.) -/
theorem accepted_chunk_payload_shape (genId : Nat → String) (now : String)
    (points : List ChunkPointIn) (q : PointStruct)
    (hq : q ∈ (preparePoints genId now points).1) :
    q.payload.created_at = now ∧
    q.payload.document_id ≠ "" ∧
    q.payload.chunk_content ≠ "" ∧
    ∃ p ∈ points, chunkInvalid p = false ∧
      q.vector = p.vector ∧
      q.payload = validatedPayload now p.payload ∧
      q.payload.document_id = p.payload.document_id ∧
      q.payload.doc_title = p.payload.doc_title.getD "" ∧
      q.payload.page = p.payload.page.getD 0 ∧
      q.payload.chunk_content = p.payload.chunk_content ∧
      q.payload.file_url = p.payload.file_url.getD "" ∧
      q.payload.user_id = p.payload.user_id ∧
      q.payload.session_id = p.payload.session_id := by
  rw [preparePoints_eq] at hq
  rcases List.mem_map.mp hq with ⟨ip, hipmem, hipeq⟩
  have hfilt := List.of_mem_filter hipmem
  have hmem := List.mem_of_mem_filter hipmem
  have hinv : chunkInvalid ip.2 = false := by
    simpa using hfilt
  have hp : ip.2 ∈ points := snd_mem_of_mem_enumFrom (by simpa [List.enum] using hmem)
  have hne : ip.2.payload.document_id ≠ "" ∧ ip.2.payload.chunk_content ≠ "" := by
    have := hinv
    simp only [chunkInvalid, Bool.or_eq_false_iff, beq_eq_false_iff_ne] at this
    exact ⟨this.1.2, this.2⟩
  subst hipeq
  refine ⟨rfl, ?_, ?_, ip.2, hp, hinv, rfl, rfl, rfl, rfl, rfl, rfl, rfl, rfl, rfl⟩
  · simpa [acceptedPointOf, validatedPayload] using hne.1
  · simpa [acceptedPointOf, validatedPayload] using hne.2

/-- C10 witness: the theorem applied to a concrete accepted point. -/
theorem accepted_chunk_payload_shape_witness :
    (⟨"gen0", [2], ⟨"d1", "T", 3, "body", "u", some "uid", some "sid", "t0"⟩⟩ :
        PointStruct) ∈
      (preparePoints (fun _ => "gen0") "t0"
        [⟨none, [2], ⟨"d1", some "T", some 3, "body", some "u", some "uid",
          some "sid"⟩⟩]).1 ∧
    ((⟨"gen0", [2], ⟨"d1", "T", 3, "body", "u", some "uid", some "sid", "t0"⟩⟩ :
        PointStruct).payload.created_at = "t0" ∧
     (⟨"gen0", [2], ⟨"d1", "T", 3, "body", "u", some "uid", some "sid", "t0"⟩⟩ :
        PointStruct).payload.document_id ≠ "" ∧
     (⟨"gen0", [2], ⟨"d1", "T", 3, "body", "u", some "uid", some "sid", "t0"⟩⟩ :
        PointStruct).payload.chunk_content ≠ "" ∧
     ∃ p ∈ [(⟨none, [2], ⟨"d1", some "T", some 3, "body", some "u", some "uid",
          some "sid"⟩⟩ : ChunkPointIn)], chunkInvalid p = false ∧
       (⟨"gen0", [2], ⟨"d1", "T", 3, "body", "u", some "uid", some "sid", "t0"⟩⟩ :
          PointStruct).vector = p.vector ∧
       (⟨"gen0", [2], ⟨"d1", "T", 3, "body", "u", some "uid", some "sid", "t0"⟩⟩ :
          PointStruct).payload = validatedPayload "t0" p.payload ∧
       (⟨"gen0", [2], ⟨"d1", "T", 3, "body", "u", some "uid", some "sid", "t0"⟩⟩ :
          PointStruct).payload.document_id = p.payload.document_id ∧
       (⟨"gen0", [2], ⟨"d1", "T", 3, "body", "u", some "uid", some "sid", "t0"⟩⟩ :
          PointStruct).payload.doc_title = p.payload.doc_title.getD "" ∧
       (⟨"gen0", [2], ⟨"d1", "T", 3, "body", "u", some "uid", some "sid", "t0"⟩⟩ :
          PointStruct).payload.page = p.payload.page.getD 0 ∧
       (⟨"gen0", [2], ⟨"d1", "T", 3, "body", "u", some "uid", some "sid", "t0"⟩⟩ :
          PointStruct).payload.chunk_content = p.payload.chunk_content ∧
       (⟨"gen0", [2], ⟨"d1", "T", 3, "body", "u", some "uid", some "sid", "t0"⟩⟩ :
          PointStruct).payload.file_url = p.payload.file_url.getD "" ∧
       (⟨"gen0", [2], ⟨"d1", "T", 3, "body", "u", some "uid", some "sid", "t0"⟩⟩ :
          PointStruct).payload.user_id = p.payload.user_id ∧
       (⟨"gen0", [2], ⟨"d1", "T", 3, "body", "u", some "uid", some "sid", "t0"⟩⟩ :
          PointStruct).payload.session_id = p.payload.session_id) :=
  ⟨by decide, accepted_chunk_payload_shape (fun _ => "gen0") "t0" _ _ (by decide)⟩

/-- C1 counterexample.  With the Qdrant client raising on every delete
while MinIO and PostgreSQL both remove the document,
`DatabaseManager.delete_document` still returns overall status
`"success"`: the overall status is not "success only if all three backend
deletions succeeded" - the Qdrant failure is visible only inside the
per-backend results map. -/
theorem delete_document_overall_status_counterexample :
    (DatabaseManager.delete_document true (some fun _ => MinioRemoveOutcome.ok)
        (some ⟨true, fun _ => some "connection refused"⟩)
        (some ⟨true, fun _ => PgRowOutcome.deleted "f.pdf"⟩) "doc-1").map
        (fun rt => (rt.1.status, rt.1.minio.map MinioDeleteResult.total_deleted,
          rt.1.qdrant.map QdrantDeleteResult.status,
          rt.1.postgres.map PgDeleteResult.total_deleted)) =
      Except.ok ("success", some 1, some "failed", some 1) := by
  rfl

/-- C1 amended.  For every document id, `delete_document` on an
initialized manager attempts the delete on all three backends - each
backend's entry in the result map is that adapter's own result,
independent of the other two adapters' outcomes, and the call trace is
always MinIO, then Qdrant, then PostgreSQL - but the top-level status is
`"success"` unconditionally: the three adapter delete methods catch their
exceptions internally, so per-backend failures never select the
`"failed"` branch and are reported only inside the per-backend map. -/
theorem delete_document_attempts_all_backends
    (remove : String → MinioRemoveOutcome) (qc : QdrantDeleteHandle)
    (pc : PgDeleteHandle) (documentId : String) :
    DatabaseManager.delete_document true (some remove) (some qc) (some pc) documentId =
      Except.ok
        ({ status := "success", document_id := documentId
           minio := some (MinioDB.delete remove [documentId])
           qdrant := some (QdrantChunksDB.deleteByDocumentId qc.connected qc.clientDelete
             [documentId])
           postgres := some (PostgresDB.delete pc.connOk pc.row [documentId]) },
         [Call.minioDelete, Call.qdrantDelete, Call.postgresDelete]) := by
  rfl

/-- C2.  `create_document` calls the BlobStore first (the trace always
starts with the MinIO insert), and when the BlobStore write fails (its
`documents` array is empty) the operation aborts with the
`"MinIO upload failed"` error, the trace is exactly the single MinIO
call, and the number of RelationalStore insert calls is zero. -/
theorem create_document_blob_first (mc : MinioInsertHandle)
    (pgClient : Option PgInsertHandle) (fileData : List Nat)
    (filename contentType fileHash documentId : String)
    (metadata : Option (List (String × String))) :
    (DatabaseManager.create_document true (some mc) pgClient fileData filename
        contentType fileHash documentId metadata).2.head? = some Call.minioInsert ∧
    ((MinioDB.insert mc.put mc.bucketOk mc.bucket mc.baseUrl
        [{ document_id := documentId, file_data := fileData, filename := filename
           file_size := fileData.length, content_type := contentType
           file_hash := fileHash }]).documents = [] →
      (DatabaseManager.create_document true (some mc) pgClient fileData filename
          contentType fileHash documentId metadata).1 =
        Except.error CreateDocErr.minioUploadFailed ∧
      (DatabaseManager.create_document true (some mc) pgClient fileData filename
          contentType fileHash documentId metadata).2 = [Call.minioInsert] ∧
      (DatabaseManager.create_document true (some mc) pgClient fileData filename
          contentType fileHash documentId metadata).2.count Call.postgresInsert = 0) := by
  constructor
  · by_cases hemp : (MinioDB.insert mc.put mc.bucketOk mc.bucket mc.baseUrl
        [{ document_id := documentId, file_data := fileData, filename := filename
           file_size := fileData.length, content_type := contentType
           file_hash := fileHash }]).documents.isEmpty = true
    · simp [DatabaseManager.create_document, hemp]
    · cases pgClient <;> simp [DatabaseManager.create_document, hemp]
  · intro hfail
    have hemp : (MinioDB.insert mc.put mc.bucketOk mc.bucket mc.baseUrl
        [{ document_id := documentId, file_data := fileData, filename := filename
           file_size := fileData.length, content_type := contentType
           file_hash := fileHash }]).documents.isEmpty = true := by
      simp [List.isEmpty_iff, hfail]
    refine ⟨?_, ?_, ?_⟩ <;> simp [DatabaseManager.create_document, hemp, List.count_cons]

/-- C2 witness: a bucket-creation failure makes the blob write fail, and
the operation makes zero RelationalStore insert calls. -/
theorem create_document_blob_first_witness :
    (MinioDB.insert (fun _ => none) false "documents" "https://minio/bucket"
        [{ document_id := "d-1", file_data := [1], filename := "a.pdf"
           file_size := 1, content_type := "application/pdf"
           file_hash := "h" }]).documents = [] ∧
    (DatabaseManager.create_document true
        (some ⟨fun _ => none, false, "documents", "https://minio/bucket"⟩)
        (some ⟨true, fun _ => true, fun _ => none⟩) [1] "a.pdf" "application/pdf" "h"
        "d-1" none).1 = Except.error CreateDocErr.minioUploadFailed ∧
    (DatabaseManager.create_document true
        (some ⟨fun _ => none, false, "documents", "https://minio/bucket"⟩)
        (some ⟨true, fun _ => true, fun _ => none⟩) [1] "a.pdf" "application/pdf" "h"
        "d-1" none).2.count Call.postgresInsert = 0 :=
  ⟨rfl,
   (create_document_blob_first ⟨fun _ => none, false, "documents", "https://minio/bucket"⟩
      (some ⟨true, fun _ => true, fun _ => none⟩) [1] "a.pdf" "application/pdf" "h"
      "d-1" none).2 rfl |>.1,
   (create_document_blob_first ⟨fun _ => none, false, "documents", "https://minio/bucket"⟩
      (some ⟨true, fun _ => true, fun _ => none⟩) [1] "a.pdf" "application/pdf" "h"
      "d-1" none).2 rfl |>.2.2⟩

/-- C3 counterexample.  A valid upload whose PostgreSQL connection is
down: the blob write succeeds, the relational insert fails
(`error = "Database connection failed"`, zero rows), yet
`create_document` returns status `"success"` - the operation does not
report failure to the caller. -/
theorem create_document_relational_failure_counterexample :
    ((DatabaseManager.create_document true
        (some ⟨fun _ => none, true, "documents", "https://minio/bucket"⟩)
        (some ⟨false, fun _ => true, fun _ => none⟩) [1] "a.pdf" "application/pdf" "h"
        "d-1" none).1).map
        (fun r => (r.status, r.postgres_result.error.isSome,
          r.postgres_result.total_processed)) =
      Except.ok ("success", true, 0) := by
  rfl

/-- C3 amended.  When the blob write succeeds, `create_document` returns
the `"success"` dict no matter what the RelationalStore insert did - the
relational failure is visible only inside the nested `postgres_result` -
and the already-written blob is not rolled back (the trace contains no
blob delete). -/
theorem create_document_relational_failure_reporting (mc : MinioInsertHandle)
    (pc : PgInsertHandle) (fileData : List Nat)
    (filename contentType fileHash documentId : String)
    (metadata : Option (List (String × String)))
    (hok : (MinioDB.insert mc.put mc.bucketOk mc.bucket mc.baseUrl
        [{ document_id := documentId, file_data := fileData, filename := filename
           file_size := fileData.length, content_type := contentType
           file_hash := fileHash }]).documents ≠ []) :
    (DatabaseManager.create_document true (some mc) (some pc) fileData filename
        contentType fileHash documentId metadata).1 =
      Except.ok
        { status := "success", document_id := documentId
          minio_result := MinioDB.insert mc.put mc.bucketOk mc.bucket mc.baseUrl
            [{ document_id := documentId, file_data := fileData, filename := filename
               file_size := fileData.length, content_type := contentType
               file_hash := fileHash }]
          postgres_result := (PostgresDB.insert pc.connOk pc.isUUID pc.dbErr
            ((MinioDB.insert mc.put mc.bucketOk mc.bucket mc.baseUrl
              [{ document_id := documentId, file_data := fileData, filename := filename
                 file_size := fileData.length, content_type := contentType
                 file_hash := fileHash }]).documents.map
              (pgPointOfMinioDoc metadata contentType))).result } ∧
    (DatabaseManager.create_document true (some mc) (some pc) fileData filename
        contentType fileHash documentId metadata).2 =
      [Call.minioInsert, Call.postgresInsert] ∧
    (DatabaseManager.create_document true (some mc) (some pc) fileData filename
        contentType fileHash documentId metadata).2.count Call.minioDelete = 0 := by
  have hemp : (MinioDB.insert mc.put mc.bucketOk mc.bucket mc.baseUrl
      [{ document_id := documentId, file_data := fileData, filename := filename
         file_size := fileData.length, content_type := contentType
         file_hash := fileHash }]).documents.isEmpty = false := by
    simp [List.isEmpty_iff, hok]
  refine ⟨?_, ?_, ?_⟩ <;> simp [DatabaseManager.create_document, hemp, List.count_cons]

/-- C3 witness: the theorem applied to a concrete upload whose relational
insert hits a dropped connection. -/
theorem create_document_relational_failure_reporting_witness :
    (MinioDB.insert (fun _ => none) true "documents" "https://minio/bucket"
        [{ document_id := "d-2", file_data := [1], filename := "b.pdf"
           file_size := 1, content_type := "application/pdf"
           file_hash := "h2" }]).documents ≠ [] ∧
    (DatabaseManager.create_document true
        (some ⟨fun _ => none, true, "documents", "https://minio/bucket"⟩)
        (some ⟨false, fun _ => true, fun _ => none⟩) [1] "b.pdf" "application/pdf" "h2"
        "d-2" none).2.count Call.minioDelete = 0 :=
  ⟨by decide,
   (create_document_relational_failure_reporting
      ⟨fun _ => none, true, "documents", "https://minio/bucket"⟩
      ⟨false, fun _ => true, fun _ => none⟩ [1] "b.pdf" "application/pdf" "h2" "d-2"
      none (by decide)).2.2⟩

/-- C6 counterexample.  When the vector adapter's liveness check raises
while the blob and relational checks would both report healthy,
`is_healthy` returns `{minio: true, qdrant: false, postgres: false,
overall: false}` - not the claimed `{minio: true, qdrant: false,
postgres: true, overall: false}`: the raise skips the PostgreSQL check,
which therefore stays `false`. -/
theorem is_healthy_exception_counterexample :
    DatabaseManager.is_healthy (some (Except.ok true)) (some (Except.error "boom"))
        (some (Except.ok true)) = ⟨true, false, false, false⟩ ∧
    (⟨true, false, false, false⟩ : HealthStatus) ≠ ⟨true, false, true, false⟩ :=
  ⟨rfl, by decide⟩

/-- C6 amended.  `is_healthy` never raises (it is a total function of the
three check outcomes) and always satisfies
`overall = minio AND qdrant AND postgres` over the booleans it returns;
but when the vector adapter's check throws while the other two checks
report healthy, the checks after the throwing one are skipped, so the
result is `{minio: true, qdrant: false, postgres: false, overall: false}`
- the relational flag reads `false` even though its check would have
reported healthy. -/
theorem is_healthy_overall_conjunction :
    (∀ m q p : Option (Except String Bool),
      (DatabaseManager.is_healthy m q p).overall =
        ((DatabaseManager.is_healthy m q p).minio &&
          (DatabaseManager.is_healthy m q p).qdrant &&
          (DatabaseManager.is_healthy m q p).postgres)) ∧
    (∀ e : String,
      DatabaseManager.is_healthy (some (Except.ok true)) (some (Except.error e))
        (some (Except.ok true)) = ⟨true, false, false, false⟩) := by
  constructor
  · intro m q p
    rcases m with _ | em | eb
    · rcases q with _ | eq1 | qb <;> rcases p with _ | ep | pb <;>
        simp [DatabaseManager.is_healthy]
    · simp [DatabaseManager.is_healthy]
    · rcases q with _ | eq1 | qb <;> rcases p with _ | ep | pb <;>
        simp [DatabaseManager.is_healthy]
  · intro e
    rfl

/-- A sweep never matches a row it has already expired, and an unmatched
row survives a later sweep at `now2` when its expiry did not newly cross
(`no new expirations` between the two sweep times). -/
theorem sessionSweepHit_after_sweep (now1 now2 : Int) (r : SessionRow)
    (h : r.expires_at < now2 → r.expires_at < now1) :
    sessionSweepHit now2
      (if sessionSweepHit now1 r then { r with status := "expired" } else r) = false := by
  by_cases h1 : sessionSweepHit now1 r = true
  · rw [if_pos h1]
    simp [sessionSweepHit]
  · rw [if_neg h1]
    have h1' : r.status = "expired" ∨ ¬r.expires_at < now1 := by
      by_contra hc
      push_neg at hc
      refine h1 ?_
      simp only [sessionSweepHit, Bool.and_eq_true, bne_iff_ne, ne_eq, decide_eq_true_eq]
      exact ⟨hc.1, hc.2⟩
    rcases h1' with hs | hlt
    · simp [sessionSweepHit, hs]
    · have hn2 : ¬r.expires_at < now2 := fun hlt2 => hlt (h hlt2)
      simp [sessionSweepHit, hn2]

/-- C7.  Running the expiry sweep twice in a row - same session table, no
session created in between, and no session's expiry newly crossed between
the two run times - yields `expired_count = 0` on the second run and
leaves the table (in particular every already-`"expired"` session)
unchanged. -/
theorem expiry_sweep_idempotent (now1 now2 : Int) (store : List SessionRow)
    (h : ∀ r ∈ store, r.expires_at < now2 → r.expires_at < now1) :
    sweepExpiredSessions now2 (sweepExpiredSessions now1 store).1 =
      ((sweepExpiredSessions now1 store).1, 0) := by
  induction store with
  | nil => rfl
  | cons r rs ih =>
    have hr := sessionSweepHit_after_sweep now1 now2 r (h r (List.mem_cons_self r rs))
    have hrs := ih fun x hx => h x (List.mem_cons_of_mem r hx)
    simp only [sweepExpiredSessions, List.map_cons, List.filter_cons] at hrs ⊢
    simp only [hr, if_false, Bool.false_eq_true]
    exact Prod.ext (by simpa using congrArg Prod.fst hrs) (by simpa using congrArg Prod.snd hrs)

/-- C7 witness: the theorem applied to a concrete table with one live and
one already-expired session, swept twice at the same instant. -/
theorem expiry_sweep_idempotent_witness :
    (∀ r ∈ [(⟨"s1", "u1", "active", -5, [], none⟩ : SessionRow),
        ⟨"s2", "u1", "expired", -10, [], none⟩], r.expires_at < 0 → r.expires_at < 0) ∧
    sweepExpiredSessions 0
        (sweepExpiredSessions 0 [(⟨"s1", "u1", "active", -5, [], none⟩ : SessionRow),
          ⟨"s2", "u1", "expired", -10, [], none⟩]).1 =
      ((sweepExpiredSessions 0 [(⟨"s1", "u1", "active", -5, [], none⟩ : SessionRow),
          ⟨"s2", "u1", "expired", -10, [], none⟩]).1, 0) :=
  ⟨fun _ _ h => h, expiry_sweep_idempotent 0 0 _ (fun _ _ h => h)⟩

/-- The session-store update never changes which row a `session_id`
lookup finds, and sets that row's `expires_at` to the provided value when
one is provided. -/
theorem getSession_updateSessionStore (store : List SessionRow) (sid : String)
    (status : Option String) (metadata : Option (List (String × String)))
    (tempCollectionName : Option String) (ea : Option Int) :
    (getSessionStore (updateSessionStore store sid status metadata tempCollectionName ea)
        sid).map SessionRow.expires_at =
      (getSessionStore store sid).map fun r => ea.getD r.expires_at := by
  induction store with
  | nil => rfl
  | cons r rs ih =>
    by_cases hr : (r.session_id == sid) = true
    · simp [getSessionStore, updateSessionStore, List.find?, hr]
    · simpa [getSessionStore, updateSessionStore, List.find?, hr] using ih

/-- C8.  A session whose stored `expires_at` is `T`, updated through the
route handler with `extend_hours = H`, ends with stored
`expires_at = T + 3600 * H` (epoch seconds; `H` in hours) - computed from
the stored expiry plus the delta, for every wall-clock time `now` at
which the update runs.  (`H = 0` is falsy in the handler, so no expiry
update is issued and the stored value stays `T = T + 0`.) -/
theorem session_extension_monotonic (now : Int) (store : List SessionRow) (sid : String)
    (req : SessionUpdateRequest) (T H : Int) (r : SessionRow)
    (hH : req.extend_hours = some H)
    (hr : getSessionStore store sid = some r)
    (hT : r.expires_at = T) :
    (getSessionStore (routeUpdateSession now store sid req) sid).map
        SessionRow.expires_at = some (T + 3600 * H) := by
  by_cases h0 : H = 0
  · have : routeUpdateSession now store sid req =
        updateSessionStore store sid req.status req.metadata req.temp_collection_name
          none := by
      simp [routeUpdateSession, extendHoursTruthy, hH, h0]
    rw [this, getSession_updateSessionStore, hr]
    simp [h0, hT]
  · have : routeUpdateSession now store sid req =
        updateSessionStore store sid req.status req.metadata req.temp_collection_name
          (some (r.expires_at + 3600 * H)) := by
      simp [routeUpdateSession, extendHoursTruthy, hH, h0, hr]
    rw [this, getSession_updateSessionStore, hr]
    simp [hT]

/-- C8 witness: the theorem applied to a concrete session extended by two
hours, at an arbitrary concrete wall-clock instant. -/
theorem session_extension_monotonic_witness :
    (⟨none, none, none, some 2⟩ : SessionUpdateRequest).extend_hours = some 2 ∧
    getSessionStore [(⟨"s1", "u1", "active", 1000, [], none⟩ : SessionRow)] "s1" =
      some ⟨"s1", "u1", "active", 1000, [], none⟩ ∧
    (getSessionStore
        (routeUpdateSession 987654 [(⟨"s1", "u1", "active", 1000, [], none⟩ : SessionRow)]
          "s1" ⟨none, none, none, some 2⟩) "s1").map SessionRow.expires_at =
      some (1000 + 3600 * 2) :=
  ⟨rfl, by decide,
   session_extension_monotonic 987654 _ "s1" _ 1000 2
     ⟨"s1", "u1", "active", 1000, [], none⟩ rfl (by decide) rfl⟩

/-- The transaction-aborted flag at the end of the insert loop: the run
starts aborted, or some row that passes validation hits a database
error. -/
theorem pgInsertLoop_aborted_eq (isUUID : String → Bool) (dbErr : Nat → Option String) :
    ∀ (rows : List PgInsertRow) (i : Nat) (ab : Bool),
      (pgInsertLoop isUUID dbErr i ab rows).2.2 =
        (ab || (rows.enumFrom i).any fun ir =>
          pgRowValid isUUID ir.2 && (dbErr ir.1).isSome) := by
  intro rows
  induction rows with
  | nil => intro i ab; simp [pgInsertLoop, List.enumFrom]
  | cons r rs ih =>
    intro i ab
    by_cases hf : pgRowFieldsPresent r = true
    · by_cases hu1 : isUUID r.document_id = true
      · by_cases hu2 : isUUID r.user_id = true
        · cases ab
          · rcases hd : dbErr i with _ | e <;>
              simp [pgInsertLoop, hf, hu1, hu2, hd, List.enumFrom, ih (i + 1), pgRowValid]
          · simp [pgInsertLoop, hf, hu1, hu2, List.enumFrom, ih (i + 1)]
        · simp [pgInsertLoop, hf, hu1, hu2, List.enumFrom, ih (i + 1), pgRowValid]
      · simp [pgInsertLoop, hf, hu1, List.enumFrom, ih (i + 1), pgRowValid]
    · simp [pgInsertLoop, hf, List.enumFrom, ih (i + 1), pgRowValid]

/-- When no validated row hits a database error, the insert loop's
`documents` are exactly the records of the rows that pass validation, in
input order. -/
theorem pgInsertLoop_docs_eq (isUUID : String → Bool) (dbErr : Nat → Option String) :
    ∀ (rows : List PgInsertRow) (i : Nat),
      ((rows.enumFrom i).all fun ir =>
        !(pgRowValid isUUID ir.2 && (dbErr ir.1).isSome)) = true →
      (pgInsertLoop isUUID dbErr i false rows).1 =
        (rows.filter (pgRowValid isUUID)).map pgRecordOf := by
  intro rows
  induction rows with
  | nil => intro i _; rfl
  | cons r rs ih =>
    intro i hall
    simp only [List.enumFrom, List.all_cons, Bool.and_eq_true] at hall
    by_cases hf : pgRowFieldsPresent r = true
    · by_cases hu : (isUUID r.document_id && isUUID r.user_id) = true
      · have hvalid : pgRowValid isUUID r = true := by
          simp [pgRowValid, hf, hu, Bool.and_assoc]
        have hd : dbErr i = none := by
          rcases hd : dbErr i with _ | e
          · rfl
          · exfalso
            have := hall.1
            rw [hvalid, hd] at this
            simp at this
        simp [pgInsertLoop, hf, hu, hd, List.filter_cons, hvalid, ih (i + 1) hall.2]
      · have hvalid : pgRowValid isUUID r = false := by
          simp only [pgRowValid, Bool.and_assoc, hu, Bool.and_false]
        simp [pgInsertLoop, hf, hu, List.filter_cons, hvalid, ih (i + 1) hall.2]
    · have hvalid : pgRowValid isUUID r = false := by
        simp [pgRowValid, hf]
      simp [pgInsertLoop, hf, List.filter_cons, hvalid, ih (i + 1) hall.2]

/-- C9 counterexample.  A two-row batch whose first row has a malformed
document UUID: the row fails validation (one `failed_inserts` entry), yet
the second row is committed and persisted - a subset of the batch's rows
is persisted even though a row of the batch failed, so an error on a row
does not always roll back the whole batch. -/
theorem relational_batch_insert_counterexample :
    (PostgresDB.insert true (fun s => s != "bad") (fun _ => none)
        [⟨"bad", "u-1", "f1.pdf", 10, "url1", none, none, none, []⟩,
         ⟨"doc2", "u-1", "f2.pdf", 20, "url2", none, none, none,
           []⟩]).result.failed_inserts.length = 1 ∧
    (PostgresDB.insert true (fun s => s != "bad") (fun _ => none)
        [⟨"bad", "u-1", "f1.pdf", 10, "url1", none, none, none, []⟩,
         ⟨"doc2", "u-1", "f2.pdf", 20, "url2", none, none, none, []⟩]).persisted =
      [⟨"doc2", "f2.pdf", 20, 0, "pending", "url2"⟩] :=
  ⟨rfl, rfl⟩

/-- C9 amended.  A multi-row insert runs in one transaction committed
once at the end: a database execution error on any validated row aborts
the transaction, every later row's statement fails, and the final commit
persists nothing; when no validated row hits a database error, the commit
persists exactly the rows that passed validation - so per-item validation
failures (missing required identifiers, malformed UUIDs) skip only the
failing row while the rest of the batch is still committed, unlike
database errors, which roll back the entire batch. -/
theorem relational_batch_insert_transaction (isUUID : String → Bool)
    (dbErr : Nat → Option String) (rows : List PgInsertRow) :
    (PostgresDB.insert true isUUID dbErr rows).aborted =
      pgAnyValidDbErr isUUID dbErr rows ∧
    (PostgresDB.insert true isUUID dbErr rows).persisted =
      (if pgAnyValidDbErr isUUID dbErr rows = true then []
       else (rows.filter (pgRowValid isUUID)).map pgRecordOf) ∧
    (PostgresDB.insert true isUUID dbErr rows).result.error = none := by
  have hab : (pgInsertLoop isUUID dbErr 0 false rows).2.2 =
      pgAnyValidDbErr isUUID dbErr rows := by
    simpa [pgAnyValidDbErr, List.enum] using pgInsertLoop_aborted_eq isUUID dbErr rows 0 false
  refine ⟨by simp [PostgresDB.insert, hab], ?_, by simp [PostgresDB.insert]⟩
  rcases hany : pgAnyValidDbErr isUUID dbErr rows with _ | _
  · have hall : ((rows.enumFrom 0).all fun ir =>
        !(pgRowValid isUUID ir.2 && (dbErr ir.1).isSome)) = true := by
      have hany' : ((rows.enumFrom 0).any fun ir =>
          pgRowValid isUUID ir.2 && (dbErr ir.1).isSome) = false := by
        simpa [pgAnyValidDbErr, List.enum] using hany
      simp only [List.all_eq_true, Bool.not_eq_true']
      intro ir hir
      simpa using List.any_eq_false.mp hany' ir hir
    simp [PostgresDB.insert, hab, hany, pgInsertLoop_docs_eq isUUID dbErr rows 0 hall]
  · simp [PostgresDB.insert, hab, hany]

end Docman
